import Mathlib

/-!
Verification development for the duckhunt channel minigame engine
(`duckhunt_bot.py`).  The definitions below are a shallow embedding of the
relevant source functions: machine time stamps and XP are embedded as `ℚ`
(the source works with Python floats, here modelled exactly), counters as
`ℤ`, scheduler times as `ℕ` seconds.  Randomness is passed in explicitly:
each `random.random()` draw becomes a `ℚ` argument, each `random.randint`
draw is derived from a `ℕ` seed via `randint`, which realises every value
of the inclusive range and no other.
-/

/-- One row of the level table literal in `get_level_properties`
(duckhunt_bot.py:1239-1281): `(min_xp, level, accuracy_pct,
reliability_pct, magazine_capacity, magazines_max, miss_penalty,
wild_penalty, accident_penalty)`. -/
structure LevelRow where
  min_xp : ℤ
  level : ℕ
  accuracy_pct : ℤ
  reliability_pct : ℤ
  magazine_capacity : ℤ
  magazines_max : ℤ
  miss_penalty : ℤ
  wild_penalty : ℤ
  accident_penalty : ℤ
deriving DecidableEq

/-- The `thresholds` table of `get_level_properties`, verbatim. -/
def thresholds : List LevelRow :=
  [⟨-5, 0, 55, 85, 6, 1, -1, -1, -25⟩,
   ⟨-4, 1, 55, 85, 6, 2, -1, -1, -25⟩,
   ⟨20, 2, 56, 86, 6, 2, -1, -1, -25⟩,
   ⟨50, 3, 57, 87, 6, 2, -1, -1, -25⟩,
   ⟨90, 4, 58, 88, 6, 2, -1, -1, -25⟩,
   ⟨140, 5, 59, 89, 6, 2, -1, -1, -25⟩,
   ⟨200, 6, 60, 90, 6, 2, -1, -1, -25⟩,
   ⟨270, 7, 65, 93, 4, 3, -1, -1, -25⟩,
   ⟨350, 8, 67, 93, 4, 3, -1, -1, -25⟩,
   ⟨440, 9, 69, 93, 4, 3, -1, -1, -25⟩,
   ⟨540, 10, 71, 94, 4, 3, -1, -2, -25⟩,
   ⟨650, 11, 73, 94, 4, 3, -1, -2, -25⟩,
   ⟨770, 12, 73, 94, 4, 3, -1, -2, -25⟩,
   ⟨900, 13, 74, 95, 4, 3, -1, -2, -25⟩,
   ⟨1040, 14, 74, 95, 4, 3, -1, -2, -25⟩,
   ⟨1190, 15, 75, 95, 4, 3, -1, -2, -25⟩,
   ⟨1350, 16, 80, 97, 2, 4, -1, -2, -25⟩,
   ⟨1520, 17, 81, 97, 2, 4, -1, -2, -25⟩,
   ⟨1700, 18, 81, 97, 2, 4, -1, -2, -25⟩,
   ⟨1890, 19, 82, 97, 2, 4, -1, -2, -25⟩,
   ⟨2090, 20, 82, 97, 2, 4, -3, -5, -25⟩,
   ⟨2300, 21, 83, 98, 2, 4, -3, -5, -25⟩,
   ⟨2520, 22, 83, 98, 2, 4, -3, -5, -25⟩,
   ⟨2750, 23, 84, 98, 2, 4, -3, -5, -25⟩,
   ⟨2990, 24, 84, 98, 2, 4, -3, -5, -25⟩,
   ⟨3240, 25, 85, 98, 2, 4, -3, -5, -25⟩,
   ⟨3500, 26, 90, 99, 1, 5, -3, -5, -25⟩,
   ⟨3770, 27, 91, 99, 1, 5, -3, -5, -25⟩,
   ⟨4050, 28, 91, 99, 1, 5, -3, -5, -25⟩,
   ⟨4340, 29, 92, 99, 1, 5, -3, -5, -25⟩,
   ⟨4640, 30, 92, 99, 1, 5, -5, -8, -25⟩,
   ⟨4950, 31, 93, 99, 1, 5, -5, -8, -25⟩,
   ⟨5270, 32, 93, 99, 1, 5, -5, -8, -25⟩,
   ⟨5600, 33, 94, 99, 1, 5, -5, -8, -25⟩,
   ⟨5940, 34, 94, 99, 1, 5, -5, -8, -25⟩,
   ⟨6290, 35, 95, 99, 1, 5, -5, -8, -25⟩,
   ⟨6650, 36, 95, 99, 1, 5, -5, -8, -25⟩,
   ⟨7020, 37, 96, 99, 1, 5, -5, -8, -25⟩,
   ⟨7400, 38, 96, 99, 1, 5, -5, -8, -25⟩,
   ⟨7790, 39, 97, 99, 1, 5, -5, -8, -25⟩,
   ⟨8200, 40, 97, 99, 1, 5, -5, -8, -25⟩]

/-- The selection loop of `get_level_properties`: `chosen = thresholds[0]`,
then for every `t` in order, `if xp >= t[0]: chosen = t`. -/
def pick_row (xp : ℤ) : LevelRow :=
  thresholds.foldl (fun c t => if t.min_xp ≤ xp then t else c)
    ⟨-5, 0, 55, 85, 6, 1, -1, -1, -25⟩

/-- `get_level_properties` (duckhunt_bot.py:1237-1297): pick the highest
threshold at most `xp`; the returned penalties are `-abs` of the stored
ones. -/
def get_level_properties (xp : ℤ) : LevelRow :=
  let c := pick_row xp
  { c with
      miss_penalty := -(c.miss_penalty.natAbs : ℤ)
      wild_penalty := -(c.wild_penalty.natAbs : ℤ)
      accident_penalty := -(c.accident_penalty.natAbs : ℤ) }

/-- Python `int(...)` on a float: truncation toward zero. -/
def pytrunc (q : ℚ) : ℤ :=
  if 0 ≤ q then ⌊q⌋ else ⌈q⌉

/-- `random.randint(a, b)` draws uniformly from the inclusive range
`[a, b]`.  Given a seed `r`, `randint a b r` realises exactly the values
of that range (every value is hit by some `r`, none outside it when
`a ≤ b`). -/
def randint (a b r : ℕ) : ℕ :=
  a + r % (b - a + 1)

theorem randint_le {a b : ℕ} (r : ℕ) (h : a ≤ b) : randint a b r ≤ b := by
  unfold randint
  have hmod : r % (b - a + 1) ≤ b - a := Nat.lt_succ_iff.mp (Nat.mod_lt r (by omega))
  omega

theorem le_randint (a b r : ℕ) : a ≤ randint a b r := by
  unfold randint; omega

/-- `schedule_channel_next_duck` (duckhunt_bot.py:1495-1535), as a pure
function from the current time, the last-spawn record (`0` = never
spawned), the configured window, the immediacy flag and a randomness seed
to the scheduled due time. -/
def schedule_due (now last min_spawn max_spawn : ℕ) (allow_immediate : Bool)
    (r : ℕ) : ℕ :=
  if last = 0 then
    now + randint min_spawn max_spawn r
  else if last + max_spawn < now then
    if allow_immediate then now
    else now + randint 10 30 r
  else if last + min_spawn ≤ now then
    now + randint 1 (max 1 (max 0 (last + max_spawn - now))) r
  else
    now + randint (last + min_spawn - now) (last + max_spawn - now) r

/-- One per-channel step of the spawn part of `main_loop`
(duckhunt_bot.py:4115-4123): given the channel's `channel_next_spawn`
entry, whether the channel can accept a duck, and a deferral seed, return
the new schedule entry and whether a spawn was performed. -/
def tick_channel (now : ℕ) (due : Option ℕ) (canSpawn : Bool) (r : ℕ) :
    Option ℕ × Bool :=
  match due with
  | none => (none, false)
  | some w =>
    if w ≠ 0 ∧ w ≤ now then
      if canSpawn then (none, true)
      else (some (now + randint 5 15 r), false)
    else (some w, false)

/-- A live duck (dict built in `spawn_duck`, duckhunt_bot.py:1445-1450);
`hissed` is the hostility flag added dynamically by `handle_bef`. -/
structure Duck where
  golden : Bool
  health : ℤ
  spawn_time : ℚ
  revealed : Bool
  hissed : Bool
deriving DecidableEq

/-- The critical section of `spawn_duck` (duckhunt_bot.py:1435-1452): a
spawn attempted at or above `max_ducks` returns without touching the list
or the gold roll; otherwise the gold roll `random.random() < gold_ratio`
decides the variant (health 5 golden, 1 regular) and the duck is appended
at the tail.  `roll` embeds the `random.random()` draw. -/
def spawn_duck (ducks : List Duck) (max_ducks : ℕ) (gold_chance roll now : ℚ) :
    List Duck :=
  if max_ducks ≤ ducks.length then ducks
  else
    let is_golden : Bool := decide (roll < gold_chance)
    ducks ++ [⟨is_golden, if is_golden then 5 else 1, now, false, false⟩]

/-- Per-(player, network, channel) record: exactly the fields of the
`channel_stats` dict consulted by the embedded operations. -/
structure ChannelStats where
  xp : ℚ
  ammo : ℤ
  magazines : ℤ
  magazine_capacity : ℤ
  magazines_max : ℤ
  confiscated : Bool
  jammed : Bool
  egged : Bool
  sight_next_shot : Bool
  soaked_until : ℚ
  grease_until : ℚ
  sand_until : ℚ
  brush_until : ℚ
  mirror_until : ℚ
  sunglasses_until : ℚ
  liability_insurance_until : ℚ
  life_insurance_until : ℚ
  clover_until : ℚ
  silencer_until : ℚ
  ducks_detector_until : ℚ
  trigger_lock_until : ℚ
  trigger_lock_uses : ℤ
  clover_bonus : ℤ
  explosive_shots : ℤ
  ap_shots : ℤ
  bread_uses : ℤ
  best_time : ℚ
  total_reaction_time : ℚ
  last_duck_time : ℚ
  misses : ℤ
  accidents : ℤ
  wild_fires : ℤ
  shots_fired : ℤ
  ducks_shot : ℤ
  golden_ducks : ℤ
  befriended_ducks : ℤ
  accident_penalty : ℤ
  mag_upgrade_level : ℤ
  mag_capacity_level : ℤ
  level : ℤ
deriving DecidableEq

/-- The `operation` argument of `safe_xp_operation`. -/
inductive XpOp
  | add
  | subtract
  | set
  | other
deriving DecidableEq

/-- `safe_xp_operation` (duckhunt_bot.py:734-745) on the XP value:
`subtract` and `set` clamp at 0, `add` does not, any other operation
leaves the value unchanged. -/
def safe_xp_operation (xp : ℚ) (op : XpOp) (v : ℚ) : ℚ :=
  match op with
  | XpOp.add => xp + v
  | XpOp.subtract => max 0 (xp - v)
  | XpOp.set => max 0 v
  | XpOp.other => xp

/-- The `mode` argument of `compute_accuracy`. -/
inductive Mode
  | shoot
  | bef
deriving DecidableEq

/-- The value returned by `compute_accuracy` (duckhunt_bot.py:1214-1235):
table accuracy, then explosive charge, one-shot sight, bread, mirror
glare, finally clamped into `[0.10, 0.99]`. -/
def compute_accuracy_val (cs : ChannelStats) (mode : Mode) (now : ℚ) : ℚ :=
  let props := get_level_properties (pytrunc cs.xp)
  let base0 : ℚ := props.accuracy_pct / 100
  let base1 :=
    if mode = Mode.shoot ∧ 0 < cs.explosive_shots then
      base0 + (1 - base0) * 0.25
    else base0
  let base2 :=
    if mode = Mode.shoot ∧ cs.sight_next_shot then base1 + (1 - base1) / 3
    else base1
  let base3 :=
    if mode = Mode.bef ∧ 0 < cs.bread_uses then base2 + 0.10 else base2
  let base4 :=
    if now < cs.mirror_until ∧ ¬now < cs.sunglasses_until then base3 * 0.75
    else base3
  max 0.10 (min 0.99 base4)

/-- The side effect of `compute_accuracy` on the record: in `shoot` mode an
armed one-shot sight is consumed (duckhunt_bot.py:1225-1227). -/
def compute_accuracy_stats (cs : ChannelStats) (mode : Mode) : ChannelStats :=
  if mode = Mode.shoot ∧ cs.sight_next_shot then
    { cs with sight_next_shot := false }
  else cs

/-- Effective reliability computed in `handle_bang`
(duckhunt_bot.py:1772-1782): table reliability adjusted by grease, sand
and brush in that order. -/
def effective_reliability (cs : ChannelStats) (now : ℚ) : ℚ :=
  let props := get_level_properties (pytrunc cs.xp)
  let r0 : ℚ := props.reliability_pct / 100
  let r1 := if now < cs.grease_until then 1 - (1 - r0) * 0.5 else r0
  let r2 := if now < cs.sand_until then r1 * 0.5 else r1
  if now < cs.brush_until then r2 + (1 - r2) * 0.10 else r2

/-- The slice of a potential accident victim's record that the accident
code reads: only `mirror_until` (duckhunt_bot.py:1752-1753, 1832-1833). -/
structure Victim where
  mirror_until : ℚ
deriving DecidableEq

/-- `if candidates and random.random() < p: victim = random.choice(...)`
(duckhunt_bot.py:1740-1741, 1818-1819); `ix` embeds the choice draw. -/
def pick_victim (cands : List Victim) (u p : ℚ) (ix : ℕ) : Option Victim :=
  if cands ≠ [] ∧ u < p then cands.get? (ix % cands.length) else none

/-- Configuration values read (with their source fallbacks) by the
embedded operations. -/
structure Config where
  default_xp : ℤ
  shop_sight : ℤ
  shop_silencer : ℤ
  shop_ducks_detector : ℤ
  shop_ap_ammo : ℤ
  shop_explosive_ammo : ℤ
  shop_grease : ℤ
  shop_sunglasses : ℤ
  shop_infrared_detector : ℤ
  shop_four_leaf_clover : ℤ
deriving DecidableEq

/-- `min(50, xp // 100 + 1)`: the per-channel display level used by
`check_level_change` (duckhunt_bot.py:1315-1316). -/
def level_from_xp (xp : ℤ) : ℤ :=
  min 50 (Int.fdiv xp 100 + 1)

/-- The record mutations of `check_level_change`
(duckhunt_bot.py:1313-1393): on a level change, promotion grants the new
magazine/ammo maxima when the old maxima were reached and the new ones are
larger, demotion clamps to the new maxima; the `level` field is updated. -/
def check_level_change (cs : ChannelStats) (prev_xp : ℚ) : ChannelStats :=
  let prev_level := level_from_xp (pytrunc prev_xp)
  let new_level := level_from_xp (pytrunc cs.xp)
  if new_level = prev_level then cs
  else
    let old_props := get_level_properties (pytrunc prev_xp)
    let new_props := get_level_properties (pytrunc cs.xp)
    let old_mag_cap := old_props.magazine_capacity + cs.mag_upgrade_level
    let old_mags_max := old_props.magazines_max + cs.mag_capacity_level
    let new_mag_cap := new_props.magazine_capacity + cs.mag_upgrade_level
    let new_mags_max := new_props.magazines_max + cs.mag_capacity_level
    let cs2 :=
      if prev_level < new_level then
        let cs1 :=
          if old_mags_max ≤ cs.magazines ∧ old_mags_max < new_mags_max then
            { cs with magazines := new_mags_max }
          else cs
        if old_mag_cap ≤ cs.ammo ∧ old_mag_cap < new_mag_cap then
          { cs1 with ammo := new_mag_cap }
        else cs1
      else
        let cs1 :=
          if new_mag_cap < cs.ammo then { cs with ammo := new_mag_cap } else cs
        if new_mags_max < cs.magazines then
          { cs1 with magazines := new_mags_max }
        else cs1
    { cs2 with level := new_level }

/-- The loot outcomes of `apply_weighted_loot`
(duckhunt_bot.py:3414-3429), in table order. -/
inductive LootKind
  | extra_bullet
  | sight_next
  | silencer
  | ducks_detector
  | extra_mag
  | ap_ammo
  | grease
  | sunglasses
  | explosive_ammo
  | infrared
  | wallet_150xp
  | hunting_mag
  | clover
  | junk
deriving DecidableEq

/-- The weighted loot table of `apply_weighted_loot`, verbatim. -/
def loot_table : List (LootKind × ℚ) :=
  [(LootKind.extra_bullet, 18.4),
   (LootKind.sight_next, 13.0),
   (LootKind.silencer, 12.4),
   (LootKind.ducks_detector, 11.9),
   (LootKind.extra_mag, 11.1),
   (LootKind.ap_ammo, 7.8),
   (LootKind.grease, 7.2),
   (LootKind.sunglasses, 7.0),
   (LootKind.explosive_ammo, 6.0),
   (LootKind.infrared, 4.4),
   (LootKind.wallet_150xp, 0.5),
   (LootKind.hunting_mag, 3.0),
   (LootKind.clover, 3.2),
   (LootKind.junk, 15.0)]

/-- Sum of the loot weights: `total = sum(w for _, w in loot)`. -/
def loot_total : ℚ :=
  (loot_table.map Prod.snd).sum

/-- The accumulator walk of `apply_weighted_loot`
(duckhunt_bot.py:3432-3438): first entry whose prefix sum reaches `roll`;
default is the last entry (`junk`). -/
def choose_from : List (LootKind × ℚ) → ℚ → ℚ → LootKind → LootKind
  | [], _, _, dflt => dflt
  | (name, w) :: rest, roll, acc, dflt =>
    if roll ≤ acc + w then name else choose_from rest roll (acc + w) dflt

/-- One weighted draw: `roll = random.uniform(0, total)` then walk. -/
def choose_loot (roll : ℚ) : LootKind :=
  choose_from loot_table roll 0 LootKind.junk

/-- Effect application of `apply_weighted_loot`
(duckhunt_bot.py:3440-3569) on the winner's record.  `aux` embeds the
inner `random.choice` draws (hunting-magazine XP options and clover
bonus options). -/
def apply_loot (cfg : Config) (k : LootKind) (cs : ChannelStats) (now : ℚ)
    (aux : ℕ) : ChannelStats :=
  let day : ℚ := 24 * 3600
  match k with
  | LootKind.extra_bullet =>
    if cs.ammo < cs.magazine_capacity then
      { cs with ammo := min cs.magazine_capacity (cs.ammo + 1) }
    else
      { cs with xp := safe_xp_operation cs.xp XpOp.add 7 }
  | LootKind.extra_mag =>
    if cs.magazines < cs.magazines_max then
      { cs with magazines := min cs.magazines_max (cs.magazines + 1) }
    else
      { cs with xp := safe_xp_operation cs.xp XpOp.add 20 }
  | LootKind.sight_next =>
    if cs.sight_next_shot then
      { cs with xp := safe_xp_operation cs.xp XpOp.add (cfg.shop_sight : ℚ) }
    else
      { cs with sight_next_shot := true }
  | LootKind.silencer =>
    if now < cs.silencer_until then
      { cs with xp := safe_xp_operation cs.xp XpOp.add (cfg.shop_silencer : ℚ) }
    else
      { cs with silencer_until := now + day }
  | LootKind.ducks_detector =>
    if now < cs.ducks_detector_until then
      { cs with
          xp := safe_xp_operation cs.xp XpOp.add (cfg.shop_ducks_detector : ℚ) }
    else
      { cs with ducks_detector_until := now + 4 * 3600 }
  | LootKind.ap_ammo =>
    if 0 < cs.ap_shots then
      { cs with xp := safe_xp_operation cs.xp XpOp.add (cfg.shop_ap_ammo : ℚ) }
    else
      { cs with explosive_shots := 0, ap_shots := 20 }
  | LootKind.explosive_ammo =>
    if 0 < cs.explosive_shots then
      { cs with
          xp := safe_xp_operation cs.xp XpOp.add (cfg.shop_explosive_ammo : ℚ) }
    else
      { cs with ap_shots := 0, explosive_shots := 20 }
  | LootKind.grease =>
    if now < cs.grease_until then
      { cs with xp := safe_xp_operation cs.xp XpOp.add (cfg.shop_grease : ℚ) }
    else
      { cs with grease_until := now + day }
  | LootKind.sunglasses =>
    if now < cs.sunglasses_until then
      { cs with
          xp := safe_xp_operation cs.xp XpOp.add (cfg.shop_sunglasses : ℚ) }
    else
      { cs with sunglasses_until := now + day }
  | LootKind.infrared =>
    if now < cs.trigger_lock_until ∧ 0 < cs.trigger_lock_uses then
      { cs with
          xp := safe_xp_operation cs.xp XpOp.add (cfg.shop_infrared_detector : ℚ) }
    else
      { cs with
          trigger_lock_until := now + day
          trigger_lock_uses := max cs.trigger_lock_uses 6 }
  | LootKind.wallet_150xp =>
    { cs with xp := safe_xp_operation cs.xp XpOp.add 150 }
  | LootKind.hunting_mag =>
    if cs.magazines_max ≤ cs.magazines then
      let xp : ℤ := [10, 20, 40, 50, 100].getD (aux % 5) 10
      { cs with xp := safe_xp_operation cs.xp XpOp.add (xp : ℚ) }
    else
      { cs with magazines := min cs.magazines_max (cs.magazines + 1) }
  | LootKind.clover =>
    if now < cs.clover_until then
      { cs with
          xp := safe_xp_operation cs.xp XpOp.add (cfg.shop_four_leaf_clover : ℚ) }
    else
      let bonus : ℤ := [1, 3, 5, 7, 8, 9, 10].getD (aux % 7) 1
      { cs with
          clover_bonus := bonus
          clover_until := max cs.clover_until (now + day) }
  | LootKind.junk => cs

/-- The random draws consumed by one `handle_bang` invocation.  Draws on
mutually exclusive paths share a slot. -/
structure BangRng where
  jam_u : ℚ
  hit_u : ℚ
  pen_r : ℕ
  acc_u : ℚ
  victim_ix : ℕ
  loot_u : ℚ
  loot_roll : ℚ
  loot_aux : ℕ
deriving DecidableEq

/-- Terminal message class of one `handle_bang` invocation, in source
order of the return points. -/
inductive BangOutcome
  | notAuthenticated
  | notArmed
  | jammedGun
  | emptyMag
  | soakedOut
  | eggedOut
  | safetyLock
  | wildFire
  | jamOnShot
  | missedShot
  | duckHit (killed : Bool)
deriving DecidableEq

/-- Result of one `handle_bang`/`handle_bef` style invocation: the actor's
updated record, the channel's duck list (`[]` = absent key) and the
announced loot item, if any. -/
structure BangResult where
  stats : ChannelStats
  ducks : List Duck
  loot : Option LootKind
  outcome : BangOutcome
deriving DecidableEq

/-- Field update helpers.  Lean's code generator degrades badly on long
chains of whole-structure update literals inside one definition, so each
single-field update used by the pipelines below is its own definition;
every helper is exactly one `with`-update. -/
def upd_xp (cs : ChannelStats) (v : ℚ) : ChannelStats := { cs with xp := v }

def upd_misses (cs : ChannelStats) (v : ℤ) : ChannelStats :=
  { cs with misses := v }

def upd_accidents (cs : ChannelStats) (v : ℤ) : ChannelStats :=
  { cs with accidents := v }

def upd_confiscated (cs : ChannelStats) (v : Bool) : ChannelStats :=
  { cs with confiscated := v }

def upd_ammo_shots (cs : ChannelStats) (a s : ℤ) : ChannelStats :=
  { cs with ammo := a, shots_fired := s }

def upd_last_duck (cs : ChannelStats) (v : ℚ) : ChannelStats :=
  { cs with last_duck_time := v }

def upd_kill_counts (cs : ChannelStats) (d g : ℤ) : ChannelStats :=
  { cs with ducks_shot := d, golden_ducks := g }

def upd_trt (cs : ChannelStats) (v : ℚ) : ChannelStats :=
  { cs with total_reaction_time := v }

def upd_best (cs : ChannelStats) (v : ℚ) : ChannelStats :=
  { cs with best_time := v }

def upd_expl (cs : ChannelStats) (v : ℤ) : ChannelStats :=
  { cs with explosive_shots := v }

def upd_ap (cs : ChannelStats) (v : ℤ) : ChannelStats :=
  { cs with ap_shots := v }

def upd_bread (cs : ChannelStats) (v : ℤ) : ChannelStats :=
  { cs with bread_uses := v }

def upd_befriended (cs : ChannelStats) (v : ℤ) : ChannelStats :=
  { cs with befriended_ducks := v }

/-- The ricochet/accident block shared by the wild-fire and miss branches
of `handle_bang` (duckhunt_bot.py:1820-1840 and 1742-1760 follow the same
steps; `set_confiscated_on_uninsured` distinguishes them: the miss
ricochet confiscates when uninsured, the wild-fire block has already
confiscated). -/
def accident_on_victim (cs0 cs : ChannelStats) (v : Victim) (now : ℚ)
    (set_confiscated_on_uninsured : Bool) : ChannelStats :=
  let acc_pen0 := cs.accident_penalty
  let acc_pen :=
    if now < cs0.liability_insurance_until ∧ acc_pen0 < 0 then
      Int.fdiv acc_pen0 2
    else acc_pen0
  let cs5 := upd_accidents cs (cs.accidents + 1)
  let cs6 := upd_xp cs5 (safe_xp_operation cs5.xp XpOp.subtract (-(acc_pen : ℚ)))
  let insured := now < cs0.life_insurance_until
  let cs7 :=
    if insured then upd_confiscated cs6 false
    else if set_confiscated_on_uninsured then upd_confiscated cs6 true
    else cs6
  if now < v.mirror_until ∧ ¬now < cs0.sunglasses_until then
    let extra : ℤ :=
      if now < cs0.liability_insurance_until then Int.fdiv (-1) 2 else -1
    upd_xp cs7 (safe_xp_operation cs7.xp XpOp.add (extra : ℚ))
  else cs7

/-- The no-duck branch of `handle_bang` (duckhunt_bot.py:1700-1766):
safety lock consumption, else wild-fire penalties, confiscation, the 50%
accident roll whose victim may carry an unmitigated mirror. -/
def bang_no_duck_path (cs : ChannelStats) (cands : List Victim) (now : ℚ)
    (rng : BangRng) : BangResult :=
  if now < cs.trigger_lock_until ∧ 0 < cs.trigger_lock_uses then
    let uses' := max 0 (cs.trigger_lock_uses - 1)
    let cs1 :=
      { cs with
          trigger_lock_uses := uses'
          trigger_lock_until := if uses' = 0 then 0 else cs.trigger_lock_until }
    ⟨cs1, [], none, BangOutcome.safetyLock⟩
  else
    let miss_pen : ℤ := -(randint 1 5 rng.pen_r : ℤ)
    let wild_pen0 : ℤ := -2
    let wild_pen :=
      if now < cs.liability_insurance_until ∧ wild_pen0 < 0 then
        Int.fdiv wild_pen0 2
      else wild_pen0
    let total_pen := miss_pen + wild_pen
    let cs1 := { cs with confiscated := true }
    let cs2 :=
      { cs1 with xp := safe_xp_operation cs1.xp XpOp.subtract (-(total_pen : ℚ)) }
    let prev_xp := cs1.xp
    let cs3 := { cs2 with wild_fires := cs2.wild_fires + 1 }
    let cs7 :=
      (pick_victim cands rng.acc_u 0.50 rng.victim_ix).elim cs3
        (fun v => accident_on_victim cs cs3 v now false)
    ⟨check_level_change cs7 prev_xp, [], none, BangOutcome.wildFire⟩

/-- The miss branch of the live-duck path (duckhunt_bot.py:1802-1847):
miss penalty, then the 20% ricochet with accident penalty, insurance and
mirror glare, then promotion/demotion bookkeeping. -/
def bang_miss_branch (cs2 : ChannelStats) (duck : Duck) (rest : List Duck)
    (cands : List Victim) (now : ℚ) (rng : BangRng) : BangResult :=
  let cs3 := upd_misses cs2 (cs2.misses + 1)
  let penalty : ℤ := -(randint 1 5 rng.pen_r : ℤ)
  let prev_xp := cs3.xp
  let cs4 := upd_xp cs3 (safe_xp_operation cs3.xp XpOp.subtract (-(penalty : ℚ)))
  let cs8 :=
    (pick_victim cands rng.acc_u 0.20 rng.victim_ix).elim cs4
      (fun v => accident_on_victim cs2 cs4 v now true)
  ⟨check_level_change cs8 prev_xp, duck :: rest, none, BangOutcome.missedShot⟩

/-- The hit branch of the live-duck path (duckhunt_bot.py:1849-1946):
damage (AP/explosive on golden), kill resolution, golden reveal, reaction
statistics, XP with clover bonus, promotion bookkeeping and the 10%
kill-only loot roll. -/
def bang_hit_branch (cfg : Config) (cs2 : ChannelStats) (duck : Duck)
    (rest : List Duck) (now reaction : ℚ) (rng : BangRng) : BangResult :=
  let damage : ℤ :=
    if duck.golden ∧ 0 < cs2.explosive_shots then 2
    else if duck.golden ∧ 0 < cs2.ap_shots then 2
    else 1
  let cs3 :=
    if duck.golden ∧ 0 < cs2.explosive_shots then
      upd_expl cs2 (max 0 (cs2.explosive_shots - 1))
    else if duck.golden ∧ 0 < cs2.ap_shots then
      upd_ap cs2 (max 0 (cs2.ap_shots - 1))
    else cs2
  let health' := duck.health - damage
  let killed : Bool := decide (health' ≤ 0)
  let duck1 :=
    { duck with
        health := health'
        revealed := if duck.golden ∧ ¬duck.revealed then true else duck.revealed }
  let ducks' := if killed then rest else duck1 :: rest
  let cs4 := upd_last_duck cs3 now
  let cs5 :=
    if killed then
      upd_kill_counts cs4 (cs4.ducks_shot + 1)
        (if duck.golden then cs4.golden_ducks + 1 else cs4.golden_ducks)
    else cs4
  let base_xp : ℤ := if duck.golden then 50 else cfg.default_xp
  let xp_gain : ℤ :=
    if killed then
      if now < cs2.clover_until then base_xp + cs2.clover_bonus else base_xp
    else 0
  let prev_xp := cs5.xp
  let cs6 := upd_xp cs5 (safe_xp_operation cs5.xp XpOp.add (xp_gain : ℚ))
  let cs7 := upd_trt cs6 (cs6.total_reaction_time + reaction)
  let cs8 :=
    if cs7.best_time = 0 ∨ reaction < cs7.best_time then upd_best cs7 reaction
    else cs7
  let cs9 := if xp_gain ≠ 0 then check_level_change cs8 prev_xp else cs8
  if killed ∧ rng.loot_u < 0.10 then
    let k := choose_loot rng.loot_roll
    ⟨apply_loot cfg k cs9 now rng.loot_aux, ducks', some k,
     BangOutcome.duckHit true⟩
  else
    ⟨cs9, ducks', none, BangOutcome.duckHit killed⟩

/-- The live-duck branch of `handle_bang` (duckhunt_bot.py:1768-1946):
reliability roll first, then ammo consumption on non-jam, then the
accuracy roll dispatching to the miss or hit branch. -/
def bang_duck_path (cfg : Config) (cs : ChannelStats) (duck : Duck)
    (rest : List Duck) (cands : List Victim) (now : ℚ) (rng : BangRng) :
    BangResult :=
  if effective_reliability cs now < rng.jam_u then
    ⟨{ cs with jammed := true }, duck :: rest, none, BangOutcome.jamOnShot⟩
  else
    let cs1 := upd_ammo_shots cs (cs.ammo - 1) (cs.shots_fired + 1)
    let reaction := now - duck.spawn_time
    let hit_chance := compute_accuracy_val cs1 Mode.shoot now
    let cs2 := compute_accuracy_stats cs1 Mode.shoot
    if hit_chance < rng.hit_u then
      bang_miss_branch cs2 duck rest cands now rng
    else
      bang_hit_branch cfg cs2 duck rest now reaction rng

/-- `handle_bang` (duckhunt_bot.py:1662-1946): the ordered precondition
checks, then dispatch on duck presence.  `authed` embeds
`check_authentication`, `cands` the accident candidate list (channel
occupants minus actor and bot). -/
def handle_bang (authed : Bool) (cfg : Config) (cs : ChannelStats)
    (ducks : List Duck) (cands : List Victim) (now : ℚ) (rng : BangRng) :
    BangResult :=
  if ¬authed then ⟨cs, ducks, none, BangOutcome.notAuthenticated⟩
  else if cs.confiscated then ⟨cs, ducks, none, BangOutcome.notArmed⟩
  else if cs.jammed then ⟨cs, ducks, none, BangOutcome.jammedGun⟩
  else if cs.ammo ≤ 0 then ⟨cs, ducks, none, BangOutcome.emptyMag⟩
  else if now < cs.soaked_until then ⟨cs, ducks, none, BangOutcome.soakedOut⟩
  else if cs.egged then ⟨cs, ducks, none, BangOutcome.eggedOut⟩
  else
    match ducks with
    | [] => bang_no_duck_path cs cands now rng
    | duck :: rest => bang_duck_path cfg cs duck rest cands now rng

/-- The random draws consumed by one `handle_bef` invocation. -/
structure BefRng where
  bef_u : ℚ
  pen_r : ℕ
  hiss_r : ℕ
deriving DecidableEq

/-- Terminal message class of one `handle_bef` invocation. -/
inductive BefOutcome
  | notAuthenticated
  | noDuck
  | thrashed
  | distracted
  | comfortReveal
  | befriended
  | comfort
deriving DecidableEq

/-- Result of one `handle_bef` invocation. -/
structure BefResult where
  stats : ChannelStats
  ducks : List Duck
  outcome : BefOutcome
deriving DecidableEq

/-- `handle_bef` (duckhunt_bot.py:1962-2113): authentication, no-duck
penalty, hostile thrash, the befriend-accuracy roll with the 1/20 hiss,
bread-boosted progress on golden ducks, the reveal early-return, and
completion rewards.  Note the source applies no confiscated, soaked or
egged precondition on this path. -/
def handle_bef (authed : Bool) (cfg : Config) (cs : ChannelStats)
    (ducks : List Duck) (now : ℚ) (rng : BefRng) : BefResult :=
  if ¬authed then ⟨cs, ducks, BefOutcome.notAuthenticated⟩
  else
    match ducks with
    | [] =>
      let penalty : ℤ := -(randint 1 10 rng.pen_r : ℤ)
      let prev_xp := cs.xp
      let cs1 := upd_xp cs (safe_xp_operation cs.xp XpOp.subtract (-(penalty : ℚ)))
      ⟨check_level_change cs1 prev_xp, [], BefOutcome.noDuck⟩
    | duck :: rest =>
      if duck.hissed then
        let cs1 := upd_misses cs (cs.misses + 1)
        let prev_xp := cs1.xp
        let cs2 := upd_xp cs1 (safe_xp_operation cs1.xp XpOp.subtract 250)
        ⟨check_level_change cs2 prev_xp, rest, BefOutcome.thrashed⟩
      else if compute_accuracy_val cs Mode.bef now < rng.bef_u then
        let penalty : ℤ := -(randint 1 10 rng.pen_r : ℤ)
        let cs1 := upd_misses cs (cs.misses + 1)
        let prev_xp := cs1.xp
        let cs2 := upd_xp cs1 (safe_xp_operation cs1.xp XpOp.subtract (-(penalty : ℚ)))
        let ducks' :=
          if randint 1 20 rng.hiss_r = 1 then
            { duck with hissed := true } :: rest
          else duck :: rest
        ⟨check_level_change cs2 prev_xp, ducks', BefOutcome.distracted⟩
      else
        let bef_damage : ℤ := if duck.golden ∧ 0 < cs.bread_uses then 2 else 1
        let cs1 :=
          if duck.golden ∧ 0 < cs.bread_uses then
            upd_bread cs (max 0 (cs.bread_uses - 1))
          else cs
        let health' := duck.health - bef_damage
        let killed : Bool := decide (health' ≤ 0)
        if duck.golden ∧ ¬duck.revealed then
          ⟨cs1, { duck with health := health', revealed := true } :: rest,
           BefOutcome.comfortReveal⟩
        else if killed then
          let reaction := now - duck.spawn_time
          let cs2 := upd_last_duck cs1 now
          let cs3 := upd_trt cs2 (cs2.total_reaction_time + reaction)
          let cs4 :=
            if cs3.best_time = 0 ∨ reaction < cs3.best_time then
              upd_best cs3 reaction
            else cs3
          let base_xp : ℤ := if duck.golden then 50 else cfg.default_xp
          let xp_gained : ℤ :=
            if now < cs.clover_until then base_xp + cs.clover_bonus else base_xp
          let prev_xp := cs4.xp
          let cs5 := upd_xp cs4 (safe_xp_operation cs4.xp XpOp.add (xp_gained : ℚ))
          let cs6 := upd_befriended cs5 (cs5.befriended_ducks + 1)
          ⟨check_level_change cs6 prev_xp, rest, BefOutcome.befriended⟩
        else
          ⟨cs1, { duck with health := health' } :: rest, BefOutcome.comfort⟩

/-! ### Helper lemmas -/

/-- The accumulator loop of `get_level_properties` is monotone along any
measure that is sorted along the table. -/
lemma foldl_pick_mono {β : Type} [Preorder β] (g : LevelRow → β) :
    ∀ (L : List LevelRow), L.Pairwise (fun a b => g a ≤ g b) →
    ∀ (cx cy : LevelRow) (x y : ℤ), x ≤ y → g cx ≤ g cy →
    (∀ t ∈ L, g cx ≤ g t) → (∀ t ∈ L, g cy ≤ g t) →
    g (L.foldl (fun c t => if t.min_xp ≤ x then t else c) cx) ≤
      g (L.foldl (fun c t => if t.min_xp ≤ y then t else c) cy) := by
  intro L
  induction L with
  | nil => intro _ cx cy x y _ hc _ _; simpa using hc
  | cons t ts ih =>
    intro hp cx cy x y hxy hc hcx hcy
    rw [List.pairwise_cons] at hp
    simp only [List.foldl_cons]
    have hts : ∀ s ∈ ts, g t ≤ g s := hp.1
    by_cases h1 : t.min_xp ≤ x
    · have h2 : t.min_xp ≤ y := le_trans h1 hxy
      rw [if_pos h1, if_pos h2]
      exact ih hp.2 t t x y hxy le_rfl hts hts
    · by_cases h2 : t.min_xp ≤ y
      · rw [if_neg h1, if_pos h2]
        exact ih hp.2 cx t x y hxy (hcx t (by simp))
          (fun s hs => hcx s (by simp [hs])) hts
      · rw [if_neg h1, if_neg h2]
        exact ih hp.2 cx cy x y hxy hc
          (fun s hs => hcx s (by simp [hs])) (fun s hs => hcy s (by simp [hs]))

/-- The selected row's threshold never exceeds the query when the initial
row's does not. -/
lemma foldl_pick_min_le (x : ℤ) :
    ∀ (L : List LevelRow) (c : LevelRow), c.min_xp ≤ x →
    (L.foldl (fun c t => if t.min_xp ≤ x then t else c) c).min_xp ≤ x := by
  intro L
  induction L with
  | nil => intro c hc; simpa using hc
  | cons t ts ih =>
    intro c hc
    simp only [List.foldl_cons]
    by_cases h1 : t.min_xp ≤ x
    · rw [if_pos h1]; exact ih t h1
    · rw [if_neg h1]; exact ih c hc

lemma pick_row_level_mono (x y : ℤ) (h : x ≤ y) :
    (pick_row x).level ≤ (pick_row y).level := by
  unfold pick_row
  exact foldl_pick_mono (fun r => r.level) thresholds (by decide)
    ⟨-5, 0, 55, 85, 6, 1, -1, -1, -25⟩ ⟨-5, 0, 55, 85, 6, 1, -1, -1, -25⟩
    x y h le_rfl (by decide) (by decide)

/-- Magazine capacity is non-increasing in XP along the table. -/
lemma pick_row_capacity_antitone (x y : ℤ) (h : x ≤ y) :
    (pick_row y).magazine_capacity ≤ (pick_row x).magazine_capacity := by
  unfold pick_row
  have h2 := foldl_pick_mono (fun r => -r.magazine_capacity) thresholds (by decide)
    ⟨-5, 0, 55, 85, 6, 1, -1, -1, -25⟩ ⟨-5, 0, 55, 85, 6, 1, -1, -1, -25⟩
    x y h le_rfl (by decide) (by decide)
  exact neg_le_neg_iff.mp h2

lemma pick_row_min_le (x : ℤ) (h : (-5 : ℤ) ≤ x) :
    (pick_row x).min_xp ≤ x := by
  unfold pick_row
  exact foldl_pick_min_le x thresholds _ h

lemma level_from_xp_mono (x y : ℤ) (h : x ≤ y) :
    level_from_xp x ≤ level_from_xp y := by
  unfold level_from_xp
  rw [Int.fdiv_eq_ediv _ (by norm_num), Int.fdiv_eq_ediv _ (by norm_num)]
  omega

lemma pytrunc_mono (q r : ℚ) (h : q ≤ r) : pytrunc q ≤ pytrunc r := by
  unfold pytrunc
  split_ifs with h1 h2 h2
  · exact Int.floor_le_floor h
  · linarith
  · calc ⌈q⌉ ≤ ⌈(0 : ℚ)⌉ := Int.ceil_le_ceil (by linarith)
      _ = 0 := by simp
      _ ≤ ⌊r⌋ := by positivity
  · exact Int.ceil_le_ceil h

/-! ### Sample data for concrete evaluations -/

/-- Source fallback values for the configuration entries. -/
def cfg0 : Config :=
  ⟨10, 6, 5, 50, 15, 25, 8, 5, 15, 13⟩

/-- A fresh tier-matching record: no modifiers, full tier-1 magazine. -/
def base_stats : ChannelStats where
  xp := 0
  ammo := 6
  magazines := 2
  magazine_capacity := 6
  magazines_max := 2
  confiscated := false
  jammed := false
  egged := false
  sight_next_shot := false
  soaked_until := 0
  grease_until := 0
  sand_until := 0
  brush_until := 0
  mirror_until := 0
  sunglasses_until := 0
  liability_insurance_until := 0
  life_insurance_until := 0
  clover_until := 0
  silencer_until := 0
  ducks_detector_until := 0
  trigger_lock_until := 0
  trigger_lock_uses := 0
  clover_bonus := 0
  explosive_shots := 0
  ap_shots := 0
  bread_uses := 0
  best_time := 0
  total_reaction_time := 0
  last_duck_time := 0
  misses := 0
  accidents := 0
  wild_fires := 0
  shots_fired := 0
  ducks_shot := 0
  golden_ducks := 0
  befriended_ducks := 0
  accident_penalty := -25
  mag_upgrade_level := 0
  mag_capacity_level := 0
  level := 1


/-- Projection values of the sample record, for concrete evaluations. -/
@[simp] lemma base_stats_xp : base_stats.xp = 0 := rfl

@[simp] lemma base_stats_ammo : base_stats.ammo = 6 := rfl

@[simp] lemma base_stats_magazines : base_stats.magazines = 2 := rfl

@[simp] lemma base_stats_magazine_capacity : base_stats.magazine_capacity = 6 := rfl

@[simp] lemma base_stats_magazines_max : base_stats.magazines_max = 2 := rfl

@[simp] lemma base_stats_confiscated : base_stats.confiscated = false := rfl

@[simp] lemma base_stats_jammed : base_stats.jammed = false := rfl

@[simp] lemma base_stats_egged : base_stats.egged = false := rfl

@[simp] lemma base_stats_sight_next_shot : base_stats.sight_next_shot = false := rfl

@[simp] lemma base_stats_soaked_until : base_stats.soaked_until = 0 := rfl

@[simp] lemma base_stats_grease_until : base_stats.grease_until = 0 := rfl

@[simp] lemma base_stats_sand_until : base_stats.sand_until = 0 := rfl

@[simp] lemma base_stats_brush_until : base_stats.brush_until = 0 := rfl

@[simp] lemma base_stats_mirror_until : base_stats.mirror_until = 0 := rfl

@[simp] lemma base_stats_sunglasses_until : base_stats.sunglasses_until = 0 := rfl

@[simp] lemma base_stats_liability_insurance_until : base_stats.liability_insurance_until = 0 := rfl

@[simp] lemma base_stats_life_insurance_until : base_stats.life_insurance_until = 0 := rfl

@[simp] lemma base_stats_clover_until : base_stats.clover_until = 0 := rfl

@[simp] lemma base_stats_silencer_until : base_stats.silencer_until = 0 := rfl

@[simp] lemma base_stats_ducks_detector_until : base_stats.ducks_detector_until = 0 := rfl

@[simp] lemma base_stats_trigger_lock_until : base_stats.trigger_lock_until = 0 := rfl

@[simp] lemma base_stats_trigger_lock_uses : base_stats.trigger_lock_uses = 0 := rfl

@[simp] lemma base_stats_clover_bonus : base_stats.clover_bonus = 0 := rfl

@[simp] lemma base_stats_explosive_shots : base_stats.explosive_shots = 0 := rfl

@[simp] lemma base_stats_ap_shots : base_stats.ap_shots = 0 := rfl

@[simp] lemma base_stats_bread_uses : base_stats.bread_uses = 0 := rfl

@[simp] lemma base_stats_best_time : base_stats.best_time = 0 := rfl

@[simp] lemma base_stats_total_reaction_time : base_stats.total_reaction_time = 0 := rfl

@[simp] lemma base_stats_last_duck_time : base_stats.last_duck_time = 0 := rfl

@[simp] lemma base_stats_misses : base_stats.misses = 0 := rfl

@[simp] lemma base_stats_accidents : base_stats.accidents = 0 := rfl

@[simp] lemma base_stats_wild_fires : base_stats.wild_fires = 0 := rfl

@[simp] lemma base_stats_shots_fired : base_stats.shots_fired = 0 := rfl

@[simp] lemma base_stats_ducks_shot : base_stats.ducks_shot = 0 := rfl

@[simp] lemma base_stats_golden_ducks : base_stats.golden_ducks = 0 := rfl

@[simp] lemma base_stats_befriended_ducks : base_stats.befriended_ducks = 0 := rfl

@[simp] lemma base_stats_accident_penalty : base_stats.accident_penalty = -25 := rfl

@[simp] lemma base_stats_mag_upgrade_level : base_stats.mag_upgrade_level = 0 := rfl

@[simp] lemma base_stats_mag_capacity_level : base_stats.mag_capacity_level = 0 := rfl

@[simp] lemma base_stats_level : base_stats.level = 1 := rfl


/-! ### Claim theorems -/

/-- C10: for every player-channel record, both modes and every instant,
the effective hit probability computed by `compute_accuracy` lies in the
closed interval `[0.10, 0.99]`; no combination of modifiers can make a
shot certain or push the chance below 10%. -/
theorem C10_accuracy_clamped (cs : ChannelStats) (mode : Mode) (now : ℚ) :
    0.10 ≤ compute_accuracy_val cs mode now ∧
      compute_accuracy_val cs mode now ≤ 0.99 := by
  unfold compute_accuracy_val
  exact ⟨le_max_left _ _, max_le (by norm_num) (min_le_left _ _)⟩

/-- C8 counterexample: at `xp = -6` the tier lookup clamps to the lowest
tier, whose `min_xp = -5` exceeds the query, so `tier_for(x).min_xp ≤ x`
fails for `x` below the lowest threshold. -/
theorem C8_counterexample :
    ¬((get_level_properties (-6)).min_xp ≤ (-6 : ℤ)) := by decide

/-- C8 amended: the level returned by the tier lookup is non-decreasing in
XP for all integers (negatives clamp to the lowest tier), and the selected
tier's `min_xp` is at most the query for every `x ≥ -5`, the lowest
threshold of the table; below `-5` the clamped lowest tier violates the
bound. -/
theorem C8_tier_lookup :
    (∀ x y : ℤ, x ≤ y →
        (get_level_properties x).level ≤ (get_level_properties y).level) ∧
    (∀ x : ℤ, (-5 : ℤ) ≤ x → (get_level_properties x).min_xp ≤ x) := by
  constructor
  · intro x y h
    exact pick_row_level_mono x y h
  · intro x h
    exact pick_row_min_le x h

/-- Witness for C8: evaluated at `x = 0, y = 100`. -/
theorem C8_tier_lookup_witness :
    (get_level_properties 0).level ≤ (get_level_properties 100).level ∧
      (get_level_properties 0).min_xp ≤ 0 :=
  ⟨C8_tier_lookup.1 0 100 (by decide), C8_tier_lookup.2 0 (by decide)⟩

/-- C4: the number of live ducks never exceeds `max_ducks`; a spawn at or
above the cap is a no-op rejection (the result does not depend on the
gold roll), and below the cap one duck is appended at the tail, golden
exactly when the roll is below `gold_ratio`, with health 5 when golden and
1 otherwise. -/
theorem C4_spawn_cap :
    (∀ (ducks : List Duck) (maxd : ℕ) (g roll now : ℚ),
        ducks.length ≤ maxd → (spawn_duck ducks maxd g roll now).length ≤ maxd) ∧
    (∀ (ducks : List Duck) (maxd : ℕ) (g roll now : ℚ),
        maxd ≤ ducks.length → spawn_duck ducks maxd g roll now = ducks) ∧
    (∀ (ducks : List Duck) (maxd : ℕ) (g roll now : ℚ),
        ducks.length < maxd →
        spawn_duck ducks maxd g roll now =
          ducks ++ [⟨decide (roll < g), if roll < g then 5 else 1, now,
            false, false⟩]) := by
  refine ⟨?_, ?_, ?_⟩
  · intro ducks maxd g roll now h
    unfold spawn_duck
    split_ifs with hc
    · exact h
    · simp only [List.length_append, List.length_cons, List.length_nil]
      omega
  · intro ducks maxd g roll now h
    unfold spawn_duck
    rw [if_pos h]
  · intro ducks maxd g roll now h
    unfold spawn_duck
    rw [if_neg (by omega)]
    by_cases hg : roll < g
    · simp [hg]
    · simp [hg]

/-- Witness for C4: a spawn into an empty channel with cap 1 appends a
golden duck; a second spawn is rejected. -/
theorem C4_spawn_cap_witness :
    spawn_duck [] 1 (1/2) 0 3 =
      [⟨decide ((0 : ℚ) < 1/2), if (0 : ℚ) < 1/2 then 5 else 1, 3, false, false⟩] ∧
    spawn_duck [⟨true, 5, 3, false, false⟩] 1 (1/2) 0 4 =
      [⟨true, 5, 3, false, false⟩] :=
  ⟨C4_spawn_cap.2.2 [] 1 (1/2) 0 3 (by decide),
   C4_spawn_cap.2.1 [⟨true, 5, 3, false, false⟩] 1 (1/2) 0 4 (by decide)⟩

/-- C1 counterexample: in the never-spawned history (`last = 0`) the
scheduler never takes the overdue-immediate branch: at `now = 2000`,
past `last + max_spawn = 1800`, with immediacy allowed, the due time is
`now + uniform(min_spawn, max_spawn)`, not `now`. -/
theorem C1_counterexample :
    (0 : ℕ) + 1800 < 2000 ∧ schedule_due 2000 0 600 1800 true 0 ≠ 2000 := by
  decide

/-- C1 amended: for histories with a recorded previous spawn
(`last ≠ 0`): an overdue non-suppressed rescheduling yields `due = now`;
rescheduling at the spawn instant (as `spawn_duck` does) places the next
due time inside `[last + min_spawn, last + max_spawn]`, so the scheduler
gap between consecutive natural spawns never exceeds `max_spawn`; and the
tick loop performs the spawn as soon as the due time is reached and the
channel can accept a duck.  In the never-spawned case (`last = 0`) the
due time is `now + uniform(min_spawn, max_spawn)` instead. -/
theorem C1_spawn_gap :
    (∀ (now last mins maxs r : ℕ), last ≠ 0 → last + maxs < now →
        schedule_due now last mins maxs true r = now) ∧
    (∀ (last mins maxs r : ℕ), last ≠ 0 → 1 ≤ mins → mins ≤ maxs →
        last + mins ≤ schedule_due last last mins maxs true r ∧
          schedule_due last last mins maxs true r ≤ last + maxs) ∧
    (∀ (now w r : ℕ), w ≠ 0 → w ≤ now →
        tick_channel now (some w) true r = (none, true)) ∧
    (∀ (now mins maxs r : ℕ), mins ≤ maxs →
        schedule_due now 0 mins maxs true r = now + randint mins maxs r) := by
  refine ⟨?_, ?_, ?_, ?_⟩
  · intro now last mins maxs r h0 hover
    unfold schedule_due
    rw [if_neg h0, if_pos hover]
    rfl
  · intro last mins maxs r h0 h1 h2
    unfold schedule_due
    rw [if_neg h0, if_neg (by omega), if_neg (by omega)]
    rw [Nat.add_sub_cancel_left, Nat.add_sub_cancel_left]
    have ha := le_randint mins maxs r
    have hb := randint_le r h2
    omega
  · intro now w r h1 h2
    simp [tick_channel, h1, h2]
  · intro now mins maxs r _
    unfold schedule_due
    rw [if_pos rfl]

/-- Witness for C1: evaluated at a spawn recorded at `t = 5000` with
window `[600, 1800]`, an overdue probe at `t = 7000`, and a due tick. -/
theorem C1_spawn_gap_witness :
    schedule_due 7000 5000 600 1800 true 3 = 7000 ∧
    (5000 + 600 ≤ schedule_due 5000 5000 600 1800 true 3 ∧
      schedule_due 5000 5000 600 1800 true 3 ≤ 5000 + 1800) ∧
    tick_channel 7000 (some 6600) true 0 = (none, true) :=
  ⟨C1_spawn_gap.1 7000 5000 600 1800 3 (by decide) (by decide),
   C1_spawn_gap.2.1 5000 600 1800 3 (by decide) (by decide) (by decide),
   C1_spawn_gap.2.2.1 7000 6600 0 (by decide) (by decide)⟩

/-- C7 counterexample: `random.randint(10, 30)` includes 30, so a
suppressed-immediacy probe at `t0 + 1900` (here `t0 = 1000`) can yield
exactly `t0 + 1930`, outside the claimed half-open interval
`[t0 + 1910, t0 + 1930)`. -/
theorem C7_counterexample :
    schedule_due 2900 1000 600 1800 false 20 = 2930 ∧
    ¬(1000 + 1910 ≤ schedule_due 2900 1000 600 1800 false 20 ∧
        schedule_due 2900 1000 600 1800 false 20 < 1000 + 1930) := by
  decide

/-- C7 amended: with `min_spawn = 600`, `max_spawn = 1800`, a previous
spawn at `t0 ≠ 0` and a suppressed-immediacy rescheduling at `t0 + 1900`,
the due time lies in the closed interval `[t0 + 1910, t0 + 1930]` and is
never exactly `t0 + 1900` (no immediate spawn). -/
theorem C7_probe_window (t0 r : ℕ) (h0 : t0 ≠ 0) :
    t0 + 1910 ≤ schedule_due (t0 + 1900) t0 600 1800 false r ∧
    schedule_due (t0 + 1900) t0 600 1800 false r ≤ t0 + 1930 ∧
    schedule_due (t0 + 1900) t0 600 1800 false r ≠ t0 + 1900 := by
  unfold schedule_due
  rw [if_neg h0, if_pos (by omega), if_neg Bool.false_ne_true]
  have ha := le_randint 10 30 r
  have hb := randint_le r (by norm_num : (10 : ℕ) ≤ 30)
  refine ⟨by omega, by omega, by omega⟩

/-- Witness for C7: evaluated at `t0 = 1000` with seed 0. -/
theorem C7_probe_window_witness :
    1000 + 1910 ≤ schedule_due (1000 + 1900) 1000 600 1800 false 0 ∧
    schedule_due (1000 + 1900) 1000 600 1800 false 0 ≤ 1000 + 1930 ∧
    schedule_due (1000 + 1900) 1000 600 1800 false 0 ≠ 1000 + 1900 :=
  C7_probe_window 1000 0 (by decide)

/-! ### Preservation lemmas for the pipeline operations -/

lemma get_level_properties_capacity (z : ℤ) :
    (get_level_properties z).magazine_capacity = (pick_row z).magazine_capacity :=
  rfl

/-- `check_level_change` only touches `ammo`, `magazines` and `level`. -/
lemma check_level_change_pres (cs : ChannelStats) (p : ℚ) :
    (check_level_change cs p).xp = cs.xp ∧
    (check_level_change cs p).total_reaction_time = cs.total_reaction_time ∧
    (check_level_change cs p).best_time = cs.best_time ∧
    (check_level_change cs p).mag_upgrade_level = cs.mag_upgrade_level ∧
    (check_level_change cs p).befriended_ducks = cs.befriended_ducks := by
  unfold check_level_change
  dsimp only
  split_ifs <;> exact ⟨rfl, rfl, rfl, rfl, rfl⟩


/-- Under the record invariant `ammo ≤ table capacity + upgrade` (taken at
the pre-action XP `p`), `check_level_change` leaves `ammo` unchanged: a
promotion can never grant ammo because table capacity is non-increasing
in XP, and a demotion's clamp target is then at least the current ammo. -/
lemma check_level_change_ammo (cs : ChannelStats) (p : ℚ)
    (h : cs.ammo ≤
      (get_level_properties (pytrunc p)).magazine_capacity + cs.mag_upgrade_level) :
    (check_level_change cs p).ammo = cs.ammo := by
  unfold check_level_change
  dsimp only
  by_cases heq : level_from_xp (pytrunc cs.xp) = level_from_xp (pytrunc p)
  · rw [if_pos heq]
  · rw [if_neg heq]
    by_cases hpm : level_from_xp (pytrunc p) < level_from_xp (pytrunc cs.xp)
    · rw [if_pos hpm]
      have hgrant :
          ¬((get_level_properties (pytrunc p)).magazine_capacity +
                cs.mag_upgrade_level ≤ cs.ammo ∧
            (get_level_properties (pytrunc p)).magazine_capacity +
                cs.mag_upgrade_level <
              (get_level_properties (pytrunc cs.xp)).magazine_capacity +
                cs.mag_upgrade_level) := by
        have hlt : pytrunc p < pytrunc cs.xp := by
          by_contra hc
          have := level_from_xp_mono (pytrunc cs.xp) (pytrunc p) (by omega)
          omega
        have hcap := pick_row_capacity_antitone (pytrunc p) (pytrunc cs.xp) hlt.le
        rw [get_level_properties_capacity, get_level_properties_capacity]
        omega
      rw [if_neg hgrant]
      split_ifs <;> rfl
    · rw [if_neg hpm]
      have hclamp :
          ¬((get_level_properties (pytrunc cs.xp)).magazine_capacity +
              cs.mag_upgrade_level < cs.ammo) := by
        have hlt : pytrunc cs.xp < pytrunc p := by
          by_contra hc
          have := level_from_xp_mono (pytrunc p) (pytrunc cs.xp) (by omega)
          omega
        have hcap := pick_row_capacity_antitone (pytrunc cs.xp) (pytrunc p) hlt.le
        rw [get_level_properties_capacity] at h ⊢
        omega
      rw [if_neg hclamp]
      split_ifs <;> rfl

/-- The sight-consumption side effect only touches `sight_next_shot`. -/
lemma compute_accuracy_stats_pres (cs : ChannelStats) (m : Mode) :
    (compute_accuracy_stats cs m).ammo = cs.ammo ∧
    (compute_accuracy_stats cs m).xp = cs.xp ∧
    (compute_accuracy_stats cs m).mag_upgrade_level = cs.mag_upgrade_level ∧
    (compute_accuracy_stats cs m).total_reaction_time = cs.total_reaction_time ∧
    (compute_accuracy_stats cs m).best_time = cs.best_time := by
  unfold compute_accuracy_stats
  split_ifs <;> exact ⟨rfl, rfl, rfl, rfl, rfl⟩

/-- The accident block only touches `accidents`, `xp` and `confiscated`. -/
lemma accident_on_victim_pres (cs0 cs : ChannelStats) (v : Victim) (now : ℚ)
    (b : Bool) :
    (accident_on_victim cs0 cs v now b).ammo = cs.ammo ∧
    (accident_on_victim cs0 cs v now b).mag_upgrade_level =
      cs.mag_upgrade_level ∧
    (accident_on_victim cs0 cs v now b).total_reaction_time =
      cs.total_reaction_time ∧
    (accident_on_victim cs0 cs v now b).best_time = cs.best_time := by
  unfold accident_on_victim upd_accidents upd_xp upd_confiscated
  dsimp only
  split_ifs <;> exact ⟨rfl, rfl, rfl, rfl⟩

/-- Loot effects never touch the reaction-time statistics. -/
lemma apply_loot_pres (cfg : Config) (k : LootKind) (cs : ChannelStats)
    (now : ℚ) (aux : ℕ) :
    (apply_loot cfg k cs now aux).total_reaction_time =
      cs.total_reaction_time ∧
    (apply_loot cfg k cs now aux).best_time = cs.best_time := by
  cases k <;> (unfold apply_loot; dsimp only) <;>
    ((try split_ifs) <;> exact ⟨rfl, rfl⟩)

/-- On the miss branch the record's ammo is unchanged by the penalty and
the level-change bookkeeping (given the ammo-capacity invariant). -/

lemma bang_miss_branch_ammo (cs2 : ChannelStats) (duck : Duck)
    (rest : List Duck) (cands : List Victim) (now : ℚ) (rng : BangRng)
    (hinv : cs2.ammo ≤ (get_level_properties (pytrunc cs2.xp)).magazine_capacity +
      cs2.mag_upgrade_level) :
    (bang_miss_branch cs2 duck rest cands now rng).stats.ammo = cs2.ammo := by
  unfold bang_miss_branch
  dsimp only
  cases hv : pick_victim cands rng.acc_u 0.20 rng.victim_ix with
  | none =>
    simp only [Option.elim]
    rw [check_level_change_ammo]
    · rfl
    · simpa [upd_xp, upd_misses] using hinv
  | some v =>
    simp only [Option.elim]
    rw [check_level_change_ammo]
    · rw [(accident_on_victim_pres _ _ _ _ _).1]
      rfl
    · rw [(accident_on_victim_pres _ _ _ _ _).1,
        (accident_on_victim_pres _ _ _ _ _).2.1]
      simpa [upd_xp, upd_misses] using hinv


set_option maxHeartbeats 2000000 in
/-- On the hit branch the record's ammo is unchanged by the kill
bookkeeping (given the ammo-capacity invariant and no loot roll). -/
lemma bang_hit_branch_ammo (cfg : Config) (cs2 : ChannelStats) (duck : Duck)
    (rest : List Duck) (now reaction : ℚ) (rng : BangRng)
    (hinv : cs2.ammo ≤ (get_level_properties (pytrunc cs2.xp)).magazine_capacity +
      cs2.mag_upgrade_level)
    (hloot : (0.10 : ℚ) ≤ rng.loot_u) :
    (bang_hit_branch cfg cs2 duck rest now reaction rng).stats.ammo = cs2.ammo := by
  unfold bang_hit_branch
  dsimp only
  rw [if_neg (show ¬_ from fun h => absurd h.2 (not_lt.mpr hloot))]
  dsimp only
  split_ifs <;>
    first
      | rfl
      | (rw [check_level_change_ammo] <;> first | rfl | exact hinv)


/-- Random draws producing a jam on the first shot for a fresh record. -/
def rng_jam : BangRng :=
  ⟨0.99, 0, 0, 0, 0, 1, 0, 0⟩

/-- Random draws producing a clean non-jam hit for a fresh record. -/
def rng_hit : BangRng :=
  ⟨0, 0, 0, 1, 0, 1, 0, 0⟩

/-- A fresh record at XP 0 sits in the level-1 tier: reliability 85%. -/
lemma effective_reliability_base :
    effective_reliability base_stats 5 = 85/100 := by
  norm_num [effective_reliability, base_stats, pytrunc, get_level_properties,
    pick_row, thresholds, List.foldl_cons, List.foldl_nil]

/-- C2 counterexample: a shot at a live duck that jams leaves the ammo
count unchanged (6 rounds before, 6 after): the reliability roll happens
before the ammo decrement, so a jam does not consume a round, refuting
the claim that ammo is decremented before the jam roll. -/
theorem C2_counterexample :
    (handle_bang true cfg0 base_stats [⟨false, 1, 0, false, false⟩] [] 5
        rng_jam).outcome = BangOutcome.jamOnShot ∧
    (handle_bang true cfg0 base_stats [⟨false, 1, 0, false, false⟩] [] 5
        rng_jam).stats.ammo = base_stats.ammo := by
  constructor <;>
    norm_num [handle_bang, bang_duck_path, rng_jam, effective_reliability_base]

/-- C2 amended: in the live-duck shoot path the reliability (jam) roll
precedes the ammo decrement: a jam leaves the record unchanged except for
the jam flag (no round consumed), and a non-jam attempt consumes exactly
one round, before the accuracy roll (shown under the record invariant
`ammo ≤ table capacity + upgrade` and absent a loot refund). -/

theorem C2_jam_before_ammo (cfg : Config) (cs : ChannelStats) (duck : Duck)
    (rest : List Duck) (cands : List Victim) (now : ℚ) (rng : BangRng) :
    (effective_reliability cs now < rng.jam_u →
      bang_duck_path cfg cs duck rest cands now rng =
        ⟨{ cs with jammed := true }, duck :: rest, none, BangOutcome.jamOnShot⟩) ∧
    (¬effective_reliability cs now < rng.jam_u →
      cs.ammo ≤ (get_level_properties (pytrunc cs.xp)).magazine_capacity +
        cs.mag_upgrade_level →
      (0.10 : ℚ) ≤ rng.loot_u →
      (bang_duck_path cfg cs duck rest cands now rng).stats.ammo = cs.ammo - 1) := by
  constructor
  · intro hjam
    unfold bang_duck_path
    rw [if_pos hjam]
  · intro hjam hinv hloot
    unfold bang_duck_path
    rw [if_neg hjam]
    dsimp only
    have haux : ∀ X : ChannelStats, X.ammo = cs.ammo - 1 → X.xp = cs.xp →
        X.mag_upgrade_level = cs.mag_upgrade_level →
        X.ammo ≤ (get_level_properties (pytrunc X.xp)).magazine_capacity +
          X.mag_upgrade_level := by
      intro X h1 h2 h3
      rw [h1, h2, h3]
      omega
    split_ifs with hmiss
    · rw [bang_miss_branch_ammo _ _ _ _ _ _
        (haux _ (by rw [(compute_accuracy_stats_pres _ _).1]; all_goals rfl)
          (by rw [(compute_accuracy_stats_pres _ _).2.1]; all_goals rfl)
          (by rw [(compute_accuracy_stats_pres _ _).2.2.1]; all_goals rfl))]
      rw [(compute_accuracy_stats_pres _ _).1]
      all_goals rfl
    · rw [bang_hit_branch_ammo _ _ _ _ _ _ _
        (haux _ (by rw [(compute_accuracy_stats_pres _ _).1]; all_goals rfl)
          (by rw [(compute_accuracy_stats_pres _ _).2.1]; all_goals rfl)
          (by rw [(compute_accuracy_stats_pres _ _).2.2.1]; all_goals rfl))
        hloot]
      rw [(compute_accuracy_stats_pres _ _).1]
      all_goals rfl


/-- Witness for C2: the jam equation and the one-round consumption
evaluated on a fresh record and a regular duck. -/
theorem C2_jam_before_ammo_witness :
    bang_duck_path cfg0 base_stats ⟨false, 1, 0, false, false⟩ [] [] 5 rng_jam =
      ⟨{ base_stats with jammed := true }, [⟨false, 1, 0, false, false⟩], none,
        BangOutcome.jamOnShot⟩ ∧
    (bang_duck_path cfg0 base_stats ⟨false, 1, 0, false, false⟩ [] [] 5
        rng_hit).stats.ammo = base_stats.ammo - 1 :=
  ⟨(C2_jam_before_ammo cfg0 base_stats ⟨false, 1, 0, false, false⟩ [] [] 5
      rng_jam).1 (by norm_num [effective_reliability_base, rng_jam]),
   (C2_jam_before_ammo cfg0 base_stats ⟨false, 1, 0, false, false⟩ [] [] 5
      rng_hit).2 (by norm_num [effective_reliability_base, rng_hit])
      (by norm_num [base_stats, pytrunc, get_level_properties, pick_row,
        thresholds, List.foldl_cons, List.foldl_nil])
      (by norm_num [rng_hit])⟩

lemma check_level_change_trt (cs : ChannelStats) (p : ℚ) :
    (check_level_change cs p).total_reaction_time = cs.total_reaction_time :=
  (check_level_change_pres cs p).2.1

lemma check_level_change_best (cs : ChannelStats) (p : ℚ) :
    (check_level_change cs p).best_time = cs.best_time :=
  (check_level_change_pres cs p).2.2.1

lemma apply_loot_trt (cfg : Config) (k : LootKind) (cs : ChannelStats)
    (now : ℚ) (aux : ℕ) :
    (apply_loot cfg k cs now aux).total_reaction_time = cs.total_reaction_time :=
  (apply_loot_pres cfg k cs now aux).1

lemma apply_loot_best (cfg : Config) (k : LootKind) (cs : ChannelStats)
    (now : ℚ) (aux : ℕ) :
    (apply_loot cfg k cs now aux).best_time = cs.best_time :=
  (apply_loot_pres cfg k cs now aux).2

set_option maxHeartbeats 1000000 in
/-- C5 amended: in the shoot pipeline `total_reaction_time` and
`best_time` are updated on every hit, whether or not the shot kills the
duck: after any hit the cumulative reaction time grows by the reaction
time, and the best time is lowered exactly when the shot beats (or first
sets) it.  Only on kill is wrong: a non-lethal hit updates both too. -/
theorem C5_reaction_on_hit (cfg : Config) (cs : ChannelStats) (duck : Duck)
    (rest : List Duck) (now reaction : ℚ) (rng : BangRng) :
    (bang_hit_branch cfg cs duck rest now reaction rng).stats.total_reaction_time =
      cs.total_reaction_time + reaction ∧
    (cs.best_time = 0 ∨ reaction < cs.best_time →
      (bang_hit_branch cfg cs duck rest now reaction rng).stats.best_time =
        reaction) ∧
    (¬(cs.best_time = 0 ∨ reaction < cs.best_time) →
      (bang_hit_branch cfg cs duck rest now reaction rng).stats.best_time =
        cs.best_time) := by
  refine ⟨?_, ?_, ?_⟩
  · simp [bang_hit_branch, upd_expl, upd_ap, upd_last_duck, upd_kill_counts,
      upd_xp, upd_trt, upd_best, apply_ite ChannelStats.total_reaction_time,
      apply_ite BangResult.stats, check_level_change_trt, apply_loot_trt]
  · intro h
    simp [bang_hit_branch, upd_expl, upd_ap, upd_last_duck, upd_kill_counts,
      upd_xp, upd_trt, upd_best, apply_ite ChannelStats.best_time,
      apply_ite BangResult.stats, check_level_change_best, apply_loot_best, h]
  · intro h
    simp [bang_hit_branch, upd_expl, upd_ap, upd_last_duck, upd_kill_counts,
      upd_xp, upd_trt, upd_best, apply_ite ChannelStats.best_time,
      apply_ite BangResult.stats, check_level_change_best, apply_loot_best, h]

/-- The clamped accuracy is positive, so a zero accuracy draw always
hits; lets concrete evaluations skip the accuracy computation. -/
@[simp] lemma compute_accuracy_val_not_lt_zero (cs : ChannelStats) (m : Mode)
    (now : ℚ) : ¬compute_accuracy_val cs m now < 0 := by
  unfold compute_accuracy_val
  exact not_lt.mpr (le_trans (by norm_num) (le_max_left _ _))

/-- C5 counterexample: a non-lethal hit on a fresh golden duck (health
5 → 4, outcome not a kill) still updates both statistics: the cumulative
reaction time moves from 0 to 5 and the best time is set to 5, refuting
"updated only when the shot kills". -/
theorem C5_counterexample :
    (handle_bang true cfg0 base_stats [⟨true, 5, 0, false, false⟩] [] 5
        rng_hit).outcome = BangOutcome.duckHit false ∧
    (handle_bang true cfg0 base_stats [⟨true, 5, 0, false, false⟩] [] 5
        rng_hit).stats.total_reaction_time = 5 ∧
    (handle_bang true cfg0 base_stats [⟨true, 5, 0, false, false⟩] [] 5
        rng_hit).stats.best_time = 5 ∧
    base_stats.total_reaction_time = 0 ∧ base_stats.best_time = 0 := by
  refine ⟨?_, ?_, ?_, rfl, rfl⟩ <;>
    norm_num [handle_bang, bang_duck_path, bang_hit_branch,
      effective_reliability_base,
      compute_accuracy_stats, rng_hit, upd_ammo_shots, upd_expl, upd_ap,
      upd_last_duck, upd_kill_counts, upd_xp, upd_trt, upd_best,
      safe_xp_operation]

/-- Witness for C5: evaluated on a fresh record hitting a golden duck
with reaction time 7. -/
theorem C5_reaction_on_hit_witness :
    (bang_hit_branch cfg0 base_stats ⟨true, 5, 0, false, false⟩ [] 5 7
        rng_hit).stats.total_reaction_time = base_stats.total_reaction_time + 7 ∧
    (bang_hit_branch cfg0 base_stats ⟨true, 5, 0, false, false⟩ [] 5 7
        rng_hit).stats.best_time = 7 :=
  ⟨(C5_reaction_on_hit cfg0 base_stats ⟨true, 5, 0, false, false⟩ [] 5 7
      rng_hit).1,
   (C5_reaction_on_hit cfg0 base_stats ⟨true, 5, 0, false, false⟩ [] 5 7
      rng_hit).2.1 (Or.inl base_stats_best_time)⟩

/-- A record failing three of the shoot preconditions at once:
confiscated, egged, and soaked until t = 100. -/
def blocked_stats : ChannelStats :=
  { base_stats with confiscated := true, egged := true, soaked_until := 100 }

/-- C6 counterexample: a confiscated, soaked and egged player is NOT
rejected by the befriend pipeline: the attempt engages the duck and
completes a befriend, refuting the claim that these precondition checks
are shared by both pipelines. -/
theorem C6_counterexample :
    blocked_stats.confiscated = true ∧ blocked_stats.egged = true ∧
    (5 : ℚ) < blocked_stats.soaked_until ∧
    (handle_bef true cfg0 blocked_stats [⟨false, 1, 0, false, false⟩] 5
        ⟨0, 0, 0⟩).outcome = BefOutcome.befriended ∧
    (handle_bef true cfg0 blocked_stats [⟨false, 1, 0, false, false⟩] 5
        ⟨0, 0, 0⟩).stats.befriended_ducks = blocked_stats.befriended_ducks + 1 := by
  refine ⟨rfl, rfl, by norm_num [blocked_stats], ?_, ?_⟩ <;>
    norm_num [handle_bef, blocked_stats, upd_xp, upd_misses, upd_bread,
      upd_last_duck, upd_trt, upd_best, upd_befriended, safe_xp_operation,
      check_level_change, level_from_xp, pytrunc, Int.fdiv_eq_ediv, cfg0]

/-- C6 amended: the shoot pipeline applies the ordered precondition
checks with first failure winning — authentication, then confiscated,
then jammed, then empty ammo, then soaked, then egged; the befriend
pipeline applies only authentication and then (against a live hostile
duck) the thrash, and otherwise engages the duck regardless of the
confiscated/soaked/egged flags (the record is universally quantified, so
no such precondition exists on this path). -/
theorem C6_precondition_order :
    (∀ (cfg : Config) (cs : ChannelStats) (ducks : List Duck)
        (cands : List Victim) (now : ℚ) (rng : BangRng),
      handle_bang false cfg cs ducks cands now rng =
        ⟨cs, ducks, none, BangOutcome.notAuthenticated⟩ ∧
      (cs.confiscated = true →
        handle_bang true cfg cs ducks cands now rng =
          ⟨cs, ducks, none, BangOutcome.notArmed⟩) ∧
      (cs.confiscated = false → cs.jammed = true →
        handle_bang true cfg cs ducks cands now rng =
          ⟨cs, ducks, none, BangOutcome.jammedGun⟩) ∧
      (cs.confiscated = false → cs.jammed = false → cs.ammo ≤ 0 →
        handle_bang true cfg cs ducks cands now rng =
          ⟨cs, ducks, none, BangOutcome.emptyMag⟩) ∧
      (cs.confiscated = false → cs.jammed = false → 0 < cs.ammo →
        now < cs.soaked_until →
        handle_bang true cfg cs ducks cands now rng =
          ⟨cs, ducks, none, BangOutcome.soakedOut⟩) ∧
      (cs.confiscated = false → cs.jammed = false → 0 < cs.ammo →
        ¬now < cs.soaked_until → cs.egged = true →
        handle_bang true cfg cs ducks cands now rng =
          ⟨cs, ducks, none, BangOutcome.eggedOut⟩)) ∧
    (∀ (cfg : Config) (cs : ChannelStats) (ducks : List Duck) (now : ℚ)
        (rng : BefRng),
      handle_bef false cfg cs ducks now rng =
        ⟨cs, ducks, BefOutcome.notAuthenticated⟩) ∧
    (∀ (cfg : Config) (cs : ChannelStats) (duck : Duck) (rest : List Duck)
        (now : ℚ) (rng : BefRng), duck.hissed = true →
      (handle_bef true cfg cs (duck :: rest) now rng).outcome =
        BefOutcome.thrashed ∧
      (handle_bef true cfg cs (duck :: rest) now rng).ducks = rest) ∧
    (∀ (cfg : Config) (cs : ChannelStats) (duck : Duck) (rest : List Duck)
        (now : ℚ) (rng : BefRng),
      duck.hissed = false → duck.golden = false → duck.health = 1 →
      rng.bef_u ≤ compute_accuracy_val cs Mode.bef now →
      (handle_bef true cfg cs (duck :: rest) now rng).outcome =
        BefOutcome.befriended) := by
  refine ⟨?_, ?_, ?_, ?_⟩
  · intro cfg cs ducks cands now rng
    refine ⟨by simp [handle_bang], ?_, ?_, ?_, ?_, ?_⟩
    · intro h1
      simp [handle_bang, h1]
    · intro h1 h2
      simp [handle_bang, h1, h2]
    · intro h1 h2 h3
      simp [handle_bang, h1, h2, h3]
    · intro h1 h2 h3 h4
      have h3' : ¬cs.ammo ≤ 0 := not_le.mpr h3
      simp [handle_bang, h1, h2, h3', h4]
    · intro h1 h2 h3 h4 h5
      have h3' : ¬cs.ammo ≤ 0 := not_le.mpr h3
      simp [handle_bang, h1, h2, h3', h4, h5]
  · intro cfg cs ducks now rng
    simp [handle_bef]
  · intro cfg cs duck rest now rng h
    constructor <;> simp [handle_bef, h]
  · intro cfg cs duck rest now rng h1 h2 h3 h4
    simp [handle_bef, h1, h2, h3, not_lt.mpr h4]

/-- Witness for C6: the confiscated early return on shoot and a
successful befriend by the same blocked player. -/
theorem C6_precondition_order_witness :
    handle_bang true cfg0 blocked_stats [] [] 5 rng_jam =
      ⟨blocked_stats, [], none, BangOutcome.notArmed⟩ ∧
    (handle_bef true cfg0 blocked_stats [⟨false, 1, 0, false, false⟩] 5
        ⟨0, 0, 0⟩).outcome = BefOutcome.befriended :=
  ⟨(C6_precondition_order.1 cfg0 blocked_stats [] [] 5 rng_jam).2.1 rfl,
   C6_precondition_order.2.2.2 cfg0 blocked_stats ⟨false, 1, 0, false, false⟩
     [] 5 ⟨0, 0, 0⟩ rfl rfl rfl
     (not_lt.mp (compute_accuracy_val_not_lt_zero _ _ _))⟩

lemma check_level_change_xp (cs : ChannelStats) (p : ℚ) :
    (check_level_change cs p).xp = cs.xp :=
  (check_level_change_pres cs p).1

/-- A channel occupant whose mirror modifier is active until t = 100. -/
def mirror_victim : Victim := ⟨100⟩

/-- Draws steering the no-duck path into the accident with a victim:
the 50% roll passes (0 < 0.5) and the choice picks the only candidate. -/
def rng_wild : BangRng := ⟨0, 0, 0, 0, 0, 1, 0, 0⟩

/-- C3: the claim's clamp does hold for every `subtract` (first
conjunct), but the mirror-glare extra penalty is applied through the
unclamped `add` operation, so the full wild-fire pipeline drives a
0-XP player to XP = -1 — the code violates its own XP ≥ 0 invariant
(every sibling penalty goes through the clamping `subtract`). -/
theorem C3_xp_floor_bug :
    (∀ x v : ℚ, x ≤ v → safe_xp_operation x XpOp.subtract v = 0) ∧
    (handle_bang true cfg0 base_stats [] [mirror_victim] 5
        rng_wild).stats.xp = -1 ∧
    (handle_bang true cfg0 base_stats [] [mirror_victim] 5
        rng_wild).stats.xp < 0 := by
  refine ⟨?_, ?_, ?_⟩
  · intro x v h
    unfold safe_xp_operation
    exact max_eq_left (sub_nonpos.mpr h)
  all_goals
    norm_num [handle_bang, bang_no_duck_path, accident_on_victim,
      pick_victim, mirror_victim, rng_wild, randint, upd_xp, upd_misses,
      upd_accidents, upd_confiscated, safe_xp_operation,
      check_level_change_xp, List.get?, Int.fdiv]

/-- Witness for C3: subtracting 5 from 3 XP clamps to exactly 0. -/
theorem C3_xp_floor_bug_witness :
    safe_xp_operation 3 XpOp.subtract 5 = 0 :=
  C3_xp_floor_bug.1 3 5 (by norm_num)

/-- The wild-fire path never rolls loot. -/
lemma bang_no_duck_path_loot (cs : ChannelStats) (cands : List Victim)
    (now : ℚ) (rng : BangRng) :
    (bang_no_duck_path cs cands now rng).loot = none := by
  unfold bang_no_duck_path
  split_ifs <;> rfl

/-- The miss branch never rolls loot. -/
lemma bang_miss_branch_loot (cs2 : ChannelStats) (duck : Duck)
    (rest : List Duck) (cands : List Victim) (now : ℚ) (rng : BangRng) :
    (bang_miss_branch cs2 duck rest cands now rng).loot = none :=
  rfl

/-- On the hit branch either no loot fires, or the outcome is a kill,
the 10% roll passed, and the item is the single weighted draw. -/
lemma bang_hit_branch_loot (cfg : Config) (cs2 : ChannelStats) (duck : Duck)
    (rest : List Duck) (now reaction : ℚ) (rng : BangRng) :
    (bang_hit_branch cfg cs2 duck rest now reaction rng).loot = none ∨
    ((bang_hit_branch cfg cs2 duck rest now reaction rng).outcome =
        BangOutcome.duckHit true ∧
      rng.loot_u < 0.10 ∧
      (bang_hit_branch cfg cs2 duck rest now reaction rng).loot =
        some (choose_loot rng.loot_roll)) := by
  unfold bang_hit_branch
  dsimp only
  by_cases hu : rng.loot_u < 0.10
  · by_cases hk : duck.health -
        (if duck.golden = true ∧ 0 < cs2.explosive_shots then 2
         else if duck.golden = true ∧ 0 < cs2.ap_shots then (2 : ℤ)
         else 1) ≤ 0
    · rw [if_pos ⟨decide_eq_true hk, hu⟩]
      exact Or.inr ⟨rfl, hu, rfl⟩
    · rw [if_neg (show ¬_ from fun h => hk (of_decide_eq_true h.1))]
      exact Or.inl rfl
  · rw [if_neg (show ¬_ from fun h => hu h.2)]
    exact Or.inl rfl

/-- C9 counterexample: the loot weights sum to 120.9, not 100 (the draw
is `random.uniform(0, total)`, so only relative weights matter). -/
theorem C9_counterexample :
    loot_total = 120.9 ∧ loot_total ≠ 100 := by
  constructor <;>
    norm_num [loot_total, loot_table, List.map_cons, List.map_nil,
      List.sum_cons, List.sum_nil]

/-- C9 amended: the loot table has exactly 14 outcomes with
`extra_bullet` weighted 18.4, `junk` 15.0 and `wallet_150xp` 0.5, but
the weights sum to 120.9, not 100; across the whole shoot pipeline a
loot item is announced only on a kill with the 10% roll passed, and is
the single weighted draw over the fixed table; an outcome whose item is
already at cap (full magazine / maximum magazines) grants fixed XP
(7 or 20) instead of the item. -/
theorem C9_loot_table :
    loot_table.length = 14 ∧
    ((LootKind.extra_bullet, (18.4 : ℚ)) ∈ loot_table ∧
      (LootKind.junk, (15.0 : ℚ)) ∈ loot_table ∧
      (LootKind.wallet_150xp, (0.5 : ℚ)) ∈ loot_table) ∧
    loot_total = 120.9 ∧
    (∀ (authed : Bool) (cfg : Config) (cs : ChannelStats) (ducks : List Duck)
        (cands : List Victim) (now : ℚ) (rng : BangRng),
      (handle_bang authed cfg cs ducks cands now rng).loot ≠ none →
      (handle_bang authed cfg cs ducks cands now rng).outcome =
          BangOutcome.duckHit true ∧
        rng.loot_u < 0.10 ∧
        (handle_bang authed cfg cs ducks cands now rng).loot =
          some (choose_loot rng.loot_roll)) ∧
    (∀ (cfg : Config) (cs : ChannelStats) (now : ℚ) (aux : ℕ),
      cs.magazine_capacity ≤ cs.ammo →
      (apply_loot cfg LootKind.extra_bullet cs now aux).ammo = cs.ammo ∧
      (apply_loot cfg LootKind.extra_bullet cs now aux).xp = cs.xp + 7) ∧
    (∀ (cfg : Config) (cs : ChannelStats) (now : ℚ) (aux : ℕ),
      cs.magazines_max ≤ cs.magazines →
      (apply_loot cfg LootKind.extra_mag cs now aux).magazines = cs.magazines ∧
      (apply_loot cfg LootKind.extra_mag cs now aux).xp = cs.xp + 20) := by
  refine ⟨rfl, ⟨?_, ?_, ?_⟩, ?_, ?_, ?_, ?_⟩
  · norm_num [loot_table]
  · norm_num [loot_table]
  · norm_num [loot_table]
  · norm_num [loot_total, loot_table, List.map_cons, List.map_nil,
      List.sum_cons, List.sum_nil]
  · intro authed cfg cs ducks cands now rng hne
    unfold handle_bang at hne ⊢
    split_ifs at hne ⊢
    all_goals try exact absurd rfl hne
    all_goals
      cases ducks with
      | nil => exact absurd (bang_no_duck_path_loot _ _ _ _) hne
      | cons d rest =>
        unfold bang_duck_path at hne ⊢
        dsimp only at hne ⊢
        split_ifs at hne ⊢
        all_goals try exact absurd rfl hne
        all_goals
          obtain hl | ⟨ho, hu, hl⟩ := bang_hit_branch_loot cfg
            (compute_accuracy_stats
              (upd_ammo_shots cs (cs.ammo - 1) (cs.shots_fired + 1)) Mode.shoot)
            d rest now (now - d.spawn_time) rng
          · exact absurd hl hne
          · exact ⟨ho, hu, hl⟩
  · intro cfg cs now aux h
    unfold apply_loot
    rw [if_neg (not_lt.mpr h)]
    exact ⟨rfl, rfl⟩
  · intro cfg cs now aux h
    unfold apply_loot
    rw [if_neg (not_lt.mpr h)]
    exact ⟨rfl, rfl⟩

/-- Draws producing a kill whose 10% loot roll passes. -/
def rng_loot : BangRng := ⟨0, 0, 0, 1, 0, 0, 0, 0⟩

/-- On a clean kill with `loot_u = 0` the loot roll fires. -/
lemma handle_bang_loot_fires :
    (handle_bang true cfg0 base_stats [⟨false, 1, 0, false, false⟩] [] 5
        rng_loot).loot ≠ none := by
  norm_num [handle_bang, bang_duck_path, bang_hit_branch,
    effective_reliability_base, rng_loot, compute_accuracy_stats,
    upd_ammo_shots, upd_expl, upd_ap, upd_last_duck, upd_kill_counts,
    upd_xp, upd_trt, upd_best, safe_xp_operation]
  exact Option.some_ne_none _

/-- Witness for C9: a concrete kill whose loot roll fires, and the two
at-cap substitutions on a full fresh record. -/
theorem C9_loot_table_witness :
    ((handle_bang true cfg0 base_stats [⟨false, 1, 0, false, false⟩] [] 5
          rng_loot).outcome = BangOutcome.duckHit true ∧
      rng_loot.loot_u < 0.10 ∧
      (handle_bang true cfg0 base_stats [⟨false, 1, 0, false, false⟩] [] 5
          rng_loot).loot = some (choose_loot rng_loot.loot_roll)) ∧
    ((apply_loot cfg0 LootKind.extra_bullet base_stats 5 0).ammo =
        base_stats.ammo ∧
      (apply_loot cfg0 LootKind.extra_bullet base_stats 5 0).xp =
        base_stats.xp + 7) ∧
    ((apply_loot cfg0 LootKind.extra_mag base_stats 5 0).magazines =
        base_stats.magazines ∧
      (apply_loot cfg0 LootKind.extra_mag base_stats 5 0).xp =
        base_stats.xp + 20) :=
  ⟨C9_loot_table.2.2.2.1 true cfg0 base_stats [⟨false, 1, 0, false, false⟩]
      [] 5 rng_loot handle_bang_loot_fires,
   C9_loot_table.2.2.2.2.1 cfg0 base_stats 5 0 (by norm_num),
   C9_loot_table.2.2.2.2.2 cfg0 base_stats 5 0 (by norm_num)⟩
